import Mathlib

/-!
Shallow embedding of the clinic booking API (Express + Prisma controllers):
appointment (`Consulta`) and exam (`Exame`) booking, exam results
(`ResultadoExame`), users and push tokens.  Each HTTP handler becomes a pure
function from the request data and a database snapshot to a response and the
new snapshot.  JavaScript-specific semantics (truthiness of string fields,
`parseInt`, `String.split`, `Date.setHours` with NaN giving an invalid date)
are modelled explicitly.
-/

namespace Clinica

/-- A JSON string field of a request body: `none` models `undefined`/absent. -/
abbrev Field := Option String

/-- JavaScript truthiness of an optional string: `undefined` and the empty
string are falsy, every other string is truthy. -/
def truthy : Field → Bool
  | none => false
  | some s => !(s == "")

/-- Numeric value of a list of decimal digit characters (most significant
first), as accumulated by radix-10 `parseInt`. -/
def natOfDigits (ds : List Char) : Nat :=
  ds.foldl (fun a c => a * 10 + (c.toNat - 48)) 0

/-- Model of JavaScript `parseInt(s, 10)`: skip leading spaces, optional
sign, then the longest prefix of decimal digits; `none` models `NaN` (no
digits found). -/
def parseIntJS (s : String) : Option Int :=
  let cs := s.data.dropWhile (fun c => c == ' ')
  match cs with
  | [] => none
  | c :: rest =>
    if c == '-' then
      let ds := rest.takeWhile Char.isDigit
      if ds.isEmpty then none else some (-(natOfDigits ds : Int))
    else if c == '+' then
      let ds := rest.takeWhile Char.isDigit
      if ds.isEmpty then none else some (natOfDigits ds : Int)
    else
      let ds := (c :: rest).takeWhile Char.isDigit
      if ds.isEmpty then none else some (natOfDigits ds : Int)

/-- Model of `parseInt` applied to a possibly-`undefined` argument:
`parseInt(undefined)` coerces to the string `undefined` and yields `NaN`. -/
def parseIntOpt : Option String → Option Int
  | none => none
  | some s => parseIntJS s

/-- Split a character list at every occurrence of `sep`, like JavaScript
`String.prototype.split` with a single-character separator (always at least
one piece; adjacent separators give empty pieces). -/
def splitOnChar (sep : Char) : List Char → List (List Char)
  | [] => [[]]
  | c :: cs =>
    let r := splitOnChar sep cs
    if c == sep then [] :: r
    else
      match r with
      | [] => [[c]]
      | g :: gs => (c :: g) :: gs

/-- Model of `const [horas, minutos] = hora.split(':')`: the first piece is
always defined, the second is `undefined` when the string has no colon. -/
def splitHora (hora : String) : String × Option String :=
  match (splitOnChar ':' hora.data).map String.mk with
  | [] => ("", none)
  | [a] => (a, none)
  | a :: b :: _ => (a, some b)

def msPerMinute : Int := 60000
def msPerHour : Int := 3600000
def msPerDay : Int := 86400000

/-- A JavaScript `Date` value modelled as milliseconds since the epoch;
`none` models an invalid date (`NaN` time value). -/
abbrev DateMs := Option Int

/-- Model of `d.setHours(h, m, 0, 0)` (server clock taken as UTC): keep the
calendar day of `d`, set the hour and minute (rolling over like JavaScript
does for out-of-range values), zero the seconds and milliseconds.  If the
date or either argument is `NaN` the result is an invalid date. -/
def setHoursZeroed (d : DateMs) (h m : Option Int) : DateMs :=
  match d, h, m with
  | some t, some hv, some mv =>
    some (msPerDay * (Int.fdiv t msPerDay) + hv * msPerHour + mv * msPerMinute)
  | _, _, _ => none

/-- The combined timestamp computed by the booking create handlers:
`const [horas, minutos] = hora.split(':'); const dataHora = new Date(dia);
dataHora.setHours(parseInt(horas), parseInt(minutos), 0, 0);`.
`diaDate` is the result of `new Date(dia)`. -/
def combineDataHora (diaDate : DateMs) (hora : String) : DateMs :=
  let hm := splitHora hora
  setHoursZeroed diaDate (parseIntJS hm.1) (parseIntOpt hm.2)

/-- A user row (`Usuario`).  `ativo` defaults to true on creation.
Modelled from the spec: the Prisma schema itself is not among the source
files; field names and the role strings follow the controllers. -/
structure Usuario where
  id : String
  nome : String
  email : String
  senhaHash : String
  perfil : String
  ativo : Bool
deriving Repr, DecidableEq

/-- An appointment row (`Consulta`).  `dia` stores `new Date(dia)`,
`dataHora` the combined timestamp. -/
structure Consulta where
  id : String
  pacienteId : String
  medicoId : String
  dia : DateMs
  hora : String
  dataHora : DateMs
  detalhes : Option String
  status : String
deriving Repr, DecidableEq

/-- An exam row (`Exame`): same shape as `Consulta` plus a name. -/
structure Exame where
  id : String
  nome : String
  pacienteId : String
  medicoId : String
  dia : DateMs
  hora : String
  dataHora : DateMs
  detalhes : Option String
  status : String
deriving Repr, DecidableEq

/-- An exam result row (`ResultadoExame`). -/
structure ResultadoExame where
  id : String
  exameId : String
  pacienteId : String
  medicoId : String
  detalhes : Option String
  arquivoUrl : Option String
  publicadoEm : Int
deriving Repr, DecidableEq

/-- A push-notification token row (`PushToken`), unique on `token`. -/
structure PushToken where
  id : String
  usuarioId : String
  token : String
  plataforma : String
  ativo : Bool
deriving Repr, DecidableEq

/-- The persistent store visible to the handlers. -/
structure DB where
  usuarios : List Usuario
  consultas : List Consulta
  exames : List Exame
  resultados : List ResultadoExame
  pushTokens : List PushToken
deriving Repr, DecidableEq

/-- An HTTP response: an error with a status code and taxonomy code from the
uniform error body, or a success with a status code and payload. -/
inductive Resp (α : Type) where
  | err (status : Nat) (code : String)
  | ok (status : Nat) (val : α)
deriving Repr, DecidableEq

/-- Body of `POST /consultas`. -/
structure CreateConsultaReq where
  pacienteId : Field
  medicoId : Field
  dia : Field
  hora : Field
  detalhes : Option String
deriving Repr, DecidableEq

/-- Body of `POST /exames` (adds the required `nome`). -/
structure CreateExameReq where
  nome : Field
  pacienteId : Field
  medicoId : Field
  dia : Field
  hora : Field
  detalhes : Option String
deriving Repr, DecidableEq

/-- Handler `createConsulta` (src/api/src/controllers/consultaController.js).
`pd` models `new Date` on the `dia` string (the JavaScript date parser),
`freshId` the id generated by the store for the new row.  The status of a
newly created row is not set by the controller; modelled from the spec:
the schema (absent from the sources) defaults it to `AGENDADA`
(SCHEDULED).  When the combined timestamp is an invalid date (NaN
hour/minute or an unparseable `dia`), the ORM throws while serializing the
Date for the slot query and the handler's catch answers 500
`INTERNAL_SERVER_ERROR` with nothing persisted. -/
def createConsulta (pd : String → DateMs) (freshId : String)
    (userPerfil userId : String) (b : CreateConsultaReq) (db : DB) :
    Resp Consulta × DB :=
  if !(truthy b.pacienteId && truthy b.medicoId && truthy b.dia && truthy b.hora) then
    (.err 400 "VALIDATION_ERROR", db)
  else
    let pacienteId := b.pacienteId.getD ""
    let medicoId := b.medicoId.getD ""
    let dia := b.dia.getD ""
    let hora := b.hora.getD ""
    if userPerfil == "PACIENTE" && pacienteId != userId then
      (.err 403 "AUTH_FORBIDDEN", db)
    else
      match db.usuarios.find? (fun u => u.id == medicoId) with
      | none => (.err 400 "VALIDATION_ERROR", db)
      | some medico =>
        if medico.perfil != "MEDICO" then
          (.err 400 "VALIDATION_ERROR", db)
        else
          match db.usuarios.find? (fun u => u.id == pacienteId) with
          | none => (.err 400 "VALIDATION_ERROR", db)
          | some _ =>
            let dataHora := combineDataHora (pd dia) hora
            if dataHora.isNone then
              (.err 500 "INTERNAL_SERVER_ERROR", db)
            else
              match db.consultas.find?
                  (fun c => c.medicoId == medicoId && c.dataHora == dataHora) with
              | some _ => (.err 409 "SLOT_UNAVAILABLE", db)
              | none =>
                let c : Consulta :=
                  { id := freshId, pacienteId := pacienteId, medicoId := medicoId,
                    dia := pd dia, hora := hora, dataHora := dataHora,
                    detalhes := b.detalhes, status := "AGENDADA" }
                (.ok 201 c, { db with consultas := db.consultas ++ [c] })

/-- Ascending comparison on combined timestamps (`orderBy dataHora asc`);
invalid dates sort first. -/
def leDataHora : DateMs → DateMs → Bool
  | none, _ => true
  | some _, none => false
  | some a, some b => a ≤ b

/-- Insert into a list sorted by `le` (helper for the `orderBy` model). -/
def insertSorted {α : Type} (le : α → α → Bool) (a : α) : List α → List α
  | [] => [a]
  | b :: bs => if le a b then a :: b :: bs else b :: insertSorted le a bs

/-- Sorting model for Prisma `orderBy`: which stable sort the store uses is
unobservable through these claims, so a structural insertion sort stands in
for it. -/
def sortBy {α : Type} (le : α → α → Bool) : List α → List α
  | [] => []
  | a :: as => insertSorted le a (sortBy le as)

/-- Handler `listConsultas`: role-scoped visibility filter, ordered by `dataHora`
ascending. -/
def listConsultas (userPerfil userId : String) (db : DB) : List Consulta :=
  sortBy (fun a b => leDataHora a.dataHora b.dataHora)
    (db.consultas.filter (fun c =>
      if userPerfil == "PACIENTE" then c.pacienteId == userId
      else if userPerfil == "MEDICO" then c.medicoId == userId
      else true))

/-- Handler `getConsulta`: 404 if absent, 403 on a role/ownership mismatch. -/
def getConsulta (userPerfil userId id : String) (db : DB) : Resp Consulta :=
  match db.consultas.find? (fun c => c.id == id) with
  | none => .err 404 "RESOURCE_NOT_FOUND"
  | some c =>
    if userPerfil == "PACIENTE" && c.pacienteId != userId then
      .err 403 "AUTH_FORBIDDEN"
    else if userPerfil == "MEDICO" && c.medicoId != userId then
      .err 403 "AUTH_FORBIDDEN"
    else
      .ok 200 c

def statusValidos : List String := ["AGENDADA", "REALIZADA", "CANCELADA", "NAO_COMPARECEU"]

/-- The per-row change `updateConsulta` persists: the status when one was
supplied (truthy), the free text when the field was not `undefined`
(`detalhes !== undefined`; `some none` models an explicit JSON null). -/
def applyConsultaUpdate (status : Field) (detalhes : Option (Option String))
    (c : Consulta) : Consulta :=
  let c1 := if truthy status then { c with status := status.getD "" } else c
  match detalhes with
  | some d => { c1 with detalhes := d }
  | none => c1

/-- Handler `updateConsulta`: find, permission checks, validate a supplied status,
persist only the supplied fields. -/
def updateConsulta (userPerfil userId id : String)
    (status : Field) (detalhes : Option (Option String)) (db : DB) :
    Resp Consulta × DB :=
  match db.consultas.find? (fun c => c.id == id) with
  | none => (.err 404 "RESOURCE_NOT_FOUND", db)
  | some c =>
    if userPerfil == "PACIENTE" && c.pacienteId != userId then
      (.err 403 "AUTH_FORBIDDEN", db)
    else if userPerfil == "MEDICO" && c.medicoId != userId then
      (.err 403 "AUTH_FORBIDDEN", db)
    else if truthy status && !(statusValidos.contains (status.getD "")) then
      (.err 400 "VALIDATION_ERROR", db)
    else
      (.ok 200 (applyConsultaUpdate status detalhes c),
       { db with consultas := db.consultas.map (fun x =>
           if x.id == id then applyConsultaUpdate status detalhes x else x) })

/-- Handler `deleteConsulta`: not a hard delete — sets the status to `CANCELADA`.
The only permission check is the mismatched-patient one. -/
def deleteConsulta (userPerfil userId id : String) (db : DB) :
    Resp Consulta × DB :=
  match db.consultas.find? (fun c => c.id == id) with
  | none => (.err 404 "RESOURCE_NOT_FOUND", db)
  | some c =>
    if userPerfil == "PACIENTE" && c.pacienteId != userId then
      (.err 403 "AUTH_FORBIDDEN", db)
    else
      (.ok 200 { c with status := "CANCELADA" },
       { db with consultas := db.consultas.map (fun x =>
           if x.id == id then { x with status := "CANCELADA" } else x) })

/-- Handler `createExame` (src/unnamed/part_001): same pipeline as
`createConsulta` with the extra required `nome` field and the `Exame`
table, including the 500 `INTERNAL_SERVER_ERROR` from the ORM rejecting an
invalid combined timestamp at the slot query. -/
def createExame (pd : String → DateMs) (freshId : String)
    (userPerfil userId : String) (b : CreateExameReq) (db : DB) :
    Resp Exame × DB :=
  if !(truthy b.nome && truthy b.pacienteId && truthy b.medicoId
        && truthy b.dia && truthy b.hora) then
    (.err 400 "VALIDATION_ERROR", db)
  else
    let pacienteId := b.pacienteId.getD ""
    let medicoId := b.medicoId.getD ""
    let dia := b.dia.getD ""
    let hora := b.hora.getD ""
    if userPerfil == "PACIENTE" && pacienteId != userId then
      (.err 403 "AUTH_FORBIDDEN", db)
    else
      match db.usuarios.find? (fun u => u.id == medicoId) with
      | none => (.err 400 "VALIDATION_ERROR", db)
      | some medico =>
        if medico.perfil != "MEDICO" then
          (.err 400 "VALIDATION_ERROR", db)
        else
          match db.usuarios.find? (fun u => u.id == pacienteId) with
          | none => (.err 400 "VALIDATION_ERROR", db)
          | some _ =>
            let dataHora := combineDataHora (pd dia) hora
            if dataHora.isNone then
              (.err 500 "INTERNAL_SERVER_ERROR", db)
            else
              match db.exames.find?
                  (fun e => e.medicoId == medicoId && e.dataHora == dataHora) with
              | some _ => (.err 409 "SLOT_UNAVAILABLE", db)
              | none =>
                let e : Exame :=
                  { id := freshId, nome := b.nome.getD "",
                    pacienteId := pacienteId, medicoId := medicoId,
                    dia := pd dia, hora := hora, dataHora := dataHora,
                    detalhes := b.detalhes, status := "AGENDADA" }
                (.ok 201 e, { db with exames := db.exames ++ [e] })

/-- Handler `listExames`: role-scoped visibility filter, ordered by `dataHora`
ascending. -/
def listExames (userPerfil userId : String) (db : DB) : List Exame :=
  sortBy (fun a b => leDataHora a.dataHora b.dataHora)
    (db.exames.filter (fun e =>
      if userPerfil == "PACIENTE" then e.pacienteId == userId
      else if userPerfil == "MEDICO" then e.medicoId == userId
      else true))

/-- Handler `getExame`: 404 if absent, 403 on a role/ownership mismatch. -/
def getExame (userPerfil userId id : String) (db : DB) : Resp Exame :=
  match db.exames.find? (fun e => e.id == id) with
  | none => .err 404 "RESOURCE_NOT_FOUND"
  | some e =>
    if userPerfil == "PACIENTE" && e.pacienteId != userId then
      .err 403 "AUTH_FORBIDDEN"
    else if userPerfil == "MEDICO" && e.medicoId != userId then
      .err 403 "AUTH_FORBIDDEN"
    else
      .ok 200 e

/-- The per-row change `updateExame` persists (same as for appointments). -/
def applyExameUpdate (status : Field) (detalhes : Option (Option String))
    (e : Exame) : Exame :=
  let e1 := if truthy status then { e with status := status.getD "" } else e
  match detalhes with
  | some d => { e1 with detalhes := d }
  | none => e1

/-- Handler `updateExame`: find, permission checks, validate a supplied status,
persist only the supplied fields. -/
def updateExame (userPerfil userId id : String)
    (status : Field) (detalhes : Option (Option String)) (db : DB) :
    Resp Exame × DB :=
  match db.exames.find? (fun e => e.id == id) with
  | none => (.err 404 "RESOURCE_NOT_FOUND", db)
  | some e =>
    if userPerfil == "PACIENTE" && e.pacienteId != userId then
      (.err 403 "AUTH_FORBIDDEN", db)
    else if userPerfil == "MEDICO" && e.medicoId != userId then
      (.err 403 "AUTH_FORBIDDEN", db)
    else if truthy status && !(statusValidos.contains (status.getD "")) then
      (.err 400 "VALIDATION_ERROR", db)
    else
      (.ok 200 (applyExameUpdate status detalhes e),
       { db with exames := db.exames.map (fun x =>
           if x.id == id then applyExameUpdate status detalhes x else x) })

/-- Handler `deleteExame`: not a hard delete — sets the status to `CANCELADA`.  The
only permission check is the mismatched-patient one. -/
def deleteExame (userPerfil userId id : String) (db : DB) :
    Resp Exame × DB :=
  match db.exames.find? (fun e => e.id == id) with
  | none => (.err 404 "RESOURCE_NOT_FOUND", db)
  | some e =>
    if userPerfil == "PACIENTE" && e.pacienteId != userId then
      (.err 403 "AUTH_FORBIDDEN", db)
    else
      (.ok 200 { e with status := "CANCELADA" },
       { db with exames := db.exames.map (fun x =>
           if x.id == id then { x with status := "CANCELADA" } else x) })

/-- Handler `listResultados` (src/api/src/controllers/resultadoController.js):
role-scoped visibility filter, ordered by `publicadoEm` descending. -/
def listResultados (userPerfil userId : String) (db : DB) :
    List ResultadoExame :=
  sortBy (fun a b => decide (b.publicadoEm ≤ a.publicadoEm))
    (db.resultados.filter (fun r =>
      if userPerfil == "PACIENTE" then r.pacienteId == userId
      else if userPerfil == "MEDICO" then r.medicoId == userId
      else true))

/-- Handler `getResultado`: 404 if absent, 403 on a role/ownership mismatch. -/
def getResultado (userPerfil userId id : String) (db : DB) :
    Resp ResultadoExame :=
  match db.resultados.find? (fun r => r.id == id) with
  | none => .err 404 "RESOURCE_NOT_FOUND"
  | some r =>
    if userPerfil == "PACIENTE" && r.pacienteId != userId then
      .err 403 "AUTH_FORBIDDEN"
    else if userPerfil == "MEDICO" && r.medicoId != userId then
      .err 403 "AUTH_FORBIDDEN"
    else
      .ok 200 r

/-- Handler `register` (auth controller): validates presence and the 8-character
password minimum, rejects duplicate emails, creates a `PACIENTE` user.
`hash` models the bcrypt digest. -/
def register (hash : String → String) (freshId : String)
    (nome email senha : Field) (db : DB) : Resp Usuario × DB :=
  if !(truthy nome && truthy email && truthy senha) then
    (.err 400 "VALIDATION_ERROR", db)
  else if (senha.getD "").length < 8 then
    (.err 400 "VALIDATION_ERROR", db)
  else
    match db.usuarios.find? (fun u => u.email == email.getD "") with
    | some _ => (.err 409 "RESOURCE_CONFLICT", db)
    | none =>
      let u : Usuario :=
        { id := freshId, nome := nome.getD "", email := email.getD "",
          senhaHash := hash (senha.getD ""), perfil := "PACIENTE",
          ativo := true }
      (.ok 201 u, { db with usuarios := db.usuarios ++ [u] })

def perfisValidos : List String := ["ADMIN", "PACIENTE", "ATENDENTE", "MEDICO"]

/-- Body of `PUT /users/:id`. -/
structure UpdateUserReq where
  nome : Field
  email : Field
  senha : Field
  perfil : Field
  ativo : Option Bool
deriving Repr, DecidableEq

/-- The per-row change `updateUser` persists. -/
def applyUserUpdate (hash : String → String) (b : UpdateUserReq)
    (u : Usuario) : Usuario :=
  let u1 := if truthy b.nome then { u with nome := b.nome.getD "" } else u
  let u2 := if truthy b.email then { u1 with email := b.email.getD "" } else u1
  let u3 := if truthy b.perfil then { u2 with perfil := b.perfil.getD "" } else u2
  let u4 := match b.ativo with
    | some v => { u3 with ativo := v }
    | none => u3
  if truthy b.senha then { u4 with senhaHash := hash (b.senha.getD "") } else u4

/-- Handler `updateUser` (user controller, src/unnamed/part_001): 404 if absent,
validates a supplied role and the 8-character password minimum, then
persists only the supplied fields. -/
def updateUser (hash : String → String) (id : String) (b : UpdateUserReq)
    (db : DB) : Resp Usuario × DB :=
  match db.usuarios.find? (fun u => u.id == id) with
  | none => (.err 404 "RESOURCE_NOT_FOUND", db)
  | some u =>
    if truthy b.perfil && !(perfisValidos.contains (b.perfil.getD "")) then
      (.err 400 "VALIDATION_ERROR", db)
    else if truthy b.senha && (b.senha.getD "").length < 8 then
      (.err 400 "VALIDATION_ERROR", db)
    else
      (.ok 200 (applyUserUpdate hash b u),
       { db with usuarios := db.usuarios.map (fun x =>
           if x.id == id then applyUserUpdate hash b x else x) })

def plataformasValidas : List String := ["ios", "android", "web"]

/-- The reassignment `registerPushToken` applies to an already-registered
token: new owner, new platform, reactivated. -/
def reassignPushToken (userId plat : String) (t : PushToken) : PushToken :=
  { t with usuarioId := userId, plataforma := plat, ativo := true }

/-- Handler `registerPushToken` (src/unnamed/part_002): upsert by token value —
an existing token is reassigned to the calling user (200), a new one is
created for them (201).  `ativo` defaults to true on creation; modelled
from the spec: the schema is not among the source files. -/
def registerPushToken (freshId userId : String) (token plataforma : Field)
    (db : DB) : Resp PushToken × DB :=
  if !(truthy token && truthy plataforma) then
    (.err 400 "VALIDATION_ERROR", db)
  else
    let tok := token.getD ""
    let plat := plataforma.getD ""
    if !(plataformasValidas.contains plat) then
      (.err 400 "VALIDATION_ERROR", db)
    else
      match db.pushTokens.find? (fun t => t.token == tok) with
      | some t0 =>
        (.ok 200 (reassignPushToken userId plat t0),
         { db with pushTokens := db.pushTokens.map (fun t =>
             if t.token == tok then reassignPushToken userId plat t else t) })
      | none =>
        let t : PushToken :=
          { id := freshId, usuarioId := userId, token := tok,
            plataforma := plat, ativo := true }
        (.ok 201 t, { db with pushTokens := db.pushTokens ++ [t] })

/-- Handler `deletePushToken`: 404 if absent, 403 unless the caller owns the token,
then a hard delete of the row. -/
def deletePushToken (userId id : String) (db : DB) : Resp Unit × DB :=
  match db.pushTokens.find? (fun t => t.id == id) with
  | none => (.err 404 "RESOURCE_NOT_FOUND", db)
  | some t =>
    if t.usuarioId != userId then
      (.err 403 "AUTH_FORBIDDEN", db)
    else
      (.ok 200 (),
       { db with pushTokens := db.pushTokens.filter (fun x => !(x.id == id)) })

/-- Role-scoped visibility of a booking-like row with patient reference
`pac` and doctor reference `med`, as the spec states it: a PACIENTE caller
only ever sees rows whose patient reference is their own identity, a MEDICO
caller only rows whose doctor reference is their own identity. -/
def pacVisible (perfil uid pac med : String) : Prop :=
  (perfil = "PACIENTE" → pac = uid) ∧ (perfil = "MEDICO" → med = uid)

/-- Frame relation for an appointment update request: every field the
request did not supply is unchanged, and id/patient/doctor/timestamp fields
are unchanged outright (they are never updatable). -/
def frameConsulta (status : Field) (detalhes : Option (Option String))
    (x y : Consulta) : Prop :=
  y.id = x.id ∧ y.pacienteId = x.pacienteId ∧ y.medicoId = x.medicoId ∧
  y.dia = x.dia ∧ y.hora = x.hora ∧ y.dataHora = x.dataHora ∧
  (truthy status = false → y.status = x.status) ∧
  (detalhes = none → y.detalhes = x.detalhes)

/-- Frame relation for an exam update request. -/
def frameExame (status : Field) (detalhes : Option (Option String))
    (x y : Exame) : Prop :=
  y.id = x.id ∧ y.nome = x.nome ∧ y.pacienteId = x.pacienteId ∧
  y.medicoId = x.medicoId ∧ y.dia = x.dia ∧ y.hora = x.hora ∧
  y.dataHora = x.dataHora ∧
  (truthy status = false → y.status = x.status) ∧
  (detalhes = none → y.detalhes = x.detalhes)

/-! Concrete sample data used by the witnesses. -/

/-- A date parser for witnesses: every date string parses to the epoch. -/
def pdZero : String → DateMs := fun _ => some 0

/-- A stand-in digest function for witnesses. -/
def hashW : String → String := fun s => s ++ "$"

def uMedA : Usuario := ⟨"m1", "Dr A", "m1@clinica", "hm1", "MEDICO", true⟩
def uMedB : Usuario := ⟨"m2", "Dr B", "m2@clinica", "hm2", "MEDICO", true⟩
def uPacA : Usuario := ⟨"p1", "Ana", "p1@clinica", "hp1", "PACIENTE", true⟩
def uPacB : Usuario := ⟨"p2", "Bia", "p2@clinica", "hp2", "PACIENTE", true⟩
def cCancA : Consulta :=
  ⟨"c1", "p1", "m1", some 0, "10:00", some 36000000, none, "CANCELADA"⟩
def cAgA : Consulta :=
  ⟨"c2", "p1", "m1", some 0, "11:00", some 39600000, none, "AGENDADA"⟩
def cAgB : Consulta :=
  ⟨"c3", "p2", "m2", some 0, "12:00", some 43200000, none, "AGENDADA"⟩
def eCancA : Exame :=
  ⟨"e1", "Raio X", "p1", "m1", some 0, "10:00", some 36000000, none, "CANCELADA"⟩
def eAgA : Exame :=
  ⟨"e2", "Hemograma", "p1", "m1", some 0, "11:00", some 39600000, none, "AGENDADA"⟩
def rExA : ResultadoExame := ⟨"r1", "e2", "p1", "m1", some "ok", none, 100⟩
def rExB : ResultadoExame := ⟨"r2", "e2", "p2", "m2", some "ok", none, 200⟩
def ptA : PushToken := ⟨"t1", "p1", "tok1", "ios", true⟩
def dbSample : DB :=
  ⟨[uMedA, uMedB, uPacA, uPacB], [cCancA, cAgA, cAgB], [eCancA, eAgA],
   [rExA, rExB], [ptA]⟩

/-! General lemmas about the list-level store operations. -/

/-- Running `find?` over a pointwise map whose function does not change the search
key returns the image of the original hit. -/
theorem find_map_pres {α : Type} {p : α → Bool} {f : α → α} {l : List α}
    {a : α} (hf : ∀ x, p (f x) = p x) (h : l.find? p = some a) :
    (l.map f).find? p = some (f a) := by
  induction l with
  | nil => simp at h
  | cons x xs ih =>
    cases hx : p x with
    | true =>
      rw [List.find?_cons_of_pos _ hx] at h
      rw [List.map_cons, List.find?_cons_of_pos _ ((hf x).trans hx)]
      cases h
      rfl
    | false =>
      rw [List.find?_cons_of_neg _ (by simp [hx])] at h
      rw [List.map_cons, List.find?_cons_of_neg _ (by simp [hf, hx])]
      exact ih h

/-- Mapping an idempotent per-row change twice equals mapping it once. -/
theorem map_idem {α : Type} {g : α → α} (hg : ∀ x, g (g x) = g x)
    (l : List α) : (l.map g).map g = l.map g := by
  rw [List.map_map]
  exact List.map_congr_left (fun a _ => hg a)

/-- Membership in `insertSorted` is membership in the input plus the new
element. -/
theorem mem_insertSorted {α : Type} {le : α → α → Bool} {a x : α}
    {l : List α} : x ∈ insertSorted le a l ↔ x = a ∨ x ∈ l := by
  induction l with
  | nil => simp [insertSorted]
  | cons b bs ih =>
    by_cases hle : le a b = true
    · simp [insertSorted, hle]
    · simp only [insertSorted, if_neg hle, List.mem_cons, ih]
      tauto

/-- Sorting with `sortBy` is a permutation-style reordering: membership is unchanged. -/
theorem mem_sortBy {α : Type} {le : α → α → Bool} {x : α} {l : List α} :
    x ∈ sortBy le l ↔ x ∈ l := by
  induction l with
  | nil => simp [sortBy]
  | cons a as ih => simp [sortBy, mem_insertSorted, ih]

end Clinica

namespace Clinica

/-- C10: the booking create operation performs no format validation on the
time-of-day string: a request whose `hora` is present but not of the form
HH:MM (here the non-numeric string abc) is not answered with
`VALIDATION_ERROR`.  The hour and minute parse unguarded to NaN, the
combined timestamp computed from them is the invalid date, and the ORM's
rejection of it surfaces as 500 `INTERNAL_SERVER_ERROR` (never the 400
`VALIDATION_ERROR` of the input validator), with nothing persisted — for
both entity kinds. -/
theorem createBooking_no_hora_format_validation :
    ("abc".data.contains ':') = false ∧
    parseIntJS "abc" = none ∧ parseIntOpt none = none ∧
    combineDataHora (pdZero "2024-01-01") "abc" = none ∧
    (createConsulta pdZero "c9" "ADMIN" "a1"
        ⟨some "p1", some "m1", some "2024-01-01", some "abc", none⟩ dbSample).1
      ≠ .err 400 "VALIDATION_ERROR" ∧
    createConsulta pdZero "c9" "ADMIN" "a1"
        ⟨some "p1", some "m1", some "2024-01-01", some "abc", none⟩ dbSample
      = (.err 500 "INTERNAL_SERVER_ERROR", dbSample) ∧
    (createExame pdZero "e9" "ADMIN" "a1"
        ⟨some "Raio X", some "p1", some "m1", some "2024-01-01", some "abc", none⟩
        dbSample).1
      ≠ .err 400 "VALIDATION_ERROR" ∧
    createExame pdZero "e9" "ADMIN" "a1"
        ⟨some "Raio X", some "p1", some "m1", some "2024-01-01", some "abc", none⟩
        dbSample
      = (.err 500 "INTERNAL_SERVER_ERROR", dbSample) := by
  decide

/-- C3: a caller with role PACIENTE creating a booking (appointment or exam)
for a patient reference different from their own identity receives
403 `AUTH_FORBIDDEN` and the store is unchanged. -/
theorem createBooking_paciente_mismatch_forbidden
    (pd : String → DateMs) (fid uid : String)
    (bc : CreateConsultaReq) (be : CreateExameReq) (dbc dbe : DB)
    (hcPres : (truthy bc.pacienteId && truthy bc.medicoId
               && truthy bc.dia && truthy bc.hora) = true)
    (hcNe : bc.pacienteId.getD "" ≠ uid)
    (hePres : (truthy be.nome && truthy be.pacienteId && truthy be.medicoId
               && truthy be.dia && truthy be.hora) = true)
    (heNe : be.pacienteId.getD "" ≠ uid) :
    createConsulta pd fid "PACIENTE" uid bc dbc = (.err 403 "AUTH_FORBIDDEN", dbc) ∧
    createExame pd fid "PACIENTE" uid be dbe = (.err 403 "AUTH_FORBIDDEN", dbe) := by
  constructor
  · unfold createConsulta
    rw [hcPres]
    simp [hcNe]
  · unfold createExame
    rw [hePres]
    simp [heNe]

/-- Witness for C3 at a concrete store: patient p2 tries to book for p1. -/
theorem createBooking_paciente_mismatch_forbidden_witness :
    createConsulta pdZero "c9" "PACIENTE" "p2"
        ⟨some "p1", some "m1", some "2024-01-01", some "09:00", none⟩ dbSample
      = (.err 403 "AUTH_FORBIDDEN", dbSample) ∧
    createExame pdZero "e9" "PACIENTE" "p2"
        ⟨some "Eco", some "p1", some "m1", some "2024-01-01", some "09:00", none⟩ dbSample
      = (.err 403 "AUTH_FORBIDDEN", dbSample) :=
  createBooking_paciente_mismatch_forbidden pdZero "c9" "p2"
    ⟨some "p1", some "m1", some "2024-01-01", some "09:00", none⟩
    ⟨some "Eco", some "p1", some "m1", some "2024-01-01", some "09:00", none⟩
    dbSample dbSample (by decide) (by decide) (by decide) (by decide)

/-- C8: a register or user-update request supplying a password shorter than
8 characters is answered with 400 `VALIDATION_ERROR` and no user row is
created or changed. -/
theorem shortPassword_rejected
    (hash : String → String) (fid : String) (nome email : Field) (s : String)
    (id : String) (b : UpdateUserReq) (db1 db2 : DB) (u : Usuario)
    (hlen : s.length < 8)
    (hfind : db2.usuarios.find? (fun x => x.id == id) = some u)
    (hsen : b.senha = some s) (hs : truthy b.senha = true) :
    register hash fid nome email (some s) db1 = (.err 400 "VALIDATION_ERROR", db1) ∧
    updateUser hash id b db2 = (.err 400 "VALIDATION_ERROR", db2) := by
  constructor
  · unfold register
    cases hp : (truthy nome && truthy email && truthy (some s)) with
    | false => simp [hp]
    | true => simp [hp, hlen]
  · have hs2 := hs
    rw [hsen] at hs2
    cases hperf : (truthy b.perfil
        && !(perfisValidos.contains (b.perfil.getD ""))) with
    | true =>
      simp only [updateUser, hfind]
      rw [if_pos hperf]
    | false =>
      have hcond : (truthy b.senha
          && decide ((b.senha.getD "").length < 8)) = true := by
        rw [hsen]
        simp [hs2, hlen]
      simp only [updateUser, hfind]
      rw [if_neg (by rw [hperf]; simp), if_pos hcond]

/-- Witness for C8: a 7-character password on register and on user update. -/
theorem shortPassword_rejected_witness :
    register hashW "u9" (some "Bob") (some "b@clinica") (some "1234567") dbSample
      = (.err 400 "VALIDATION_ERROR", dbSample) ∧
    updateUser hashW "p1" ⟨none, none, some "1234567", none, none⟩ dbSample
      = (.err 400 "VALIDATION_ERROR", dbSample) :=
  shortPassword_rejected hashW "u9" (some "Bob") (some "b@clinica") "1234567"
    "p1" ⟨none, none, some "1234567", none, none⟩ dbSample dbSample uPacA
    (by decide) (by decide) (by decide) (by decide)

end Clinica

namespace Clinica

/-- C1: when a booking create (appointment or exam) reaches the slot check
— which requires a valid combined timestamp, an invalid date being thrown
by the ORM as 500 before the check — and a record with the same doctor and
the same combined timestamp already exists, its status unconstrained, so in
particular a CANCELADA record, the operation answers 409 `SLOT_UNAVAILABLE`
and the store is unchanged. -/
theorem createBooking_slot_conflict
    (pd : String → DateMs) (fid perfil uid : String)
    (bc : CreateConsultaReq) (be : CreateExameReq) (dbc dbe : DB)
    (medc mede : Usuario) (c0 : Consulta) (e0 : Exame)
    (hcPres : (truthy bc.pacienteId && truthy bc.medicoId
               && truthy bc.dia && truthy bc.hora) = true)
    (hcPerm : (perfil == "PACIENTE" && bc.pacienteId.getD "" != uid) = false)
    (hcMed : dbc.usuarios.find? (fun u => u.id == bc.medicoId.getD "") = some medc)
    (hcMedP : medc.perfil = "MEDICO")
    (hcPac : (dbc.usuarios.find? (fun u => u.id == bc.pacienteId.getD "")).isSome = true)
    (hcVal : (combineDataHora (pd (bc.dia.getD "")) (bc.hora.getD "")).isNone = false)
    (hcConf : dbc.consultas.find? (fun c => c.medicoId == bc.medicoId.getD ""
        && c.dataHora == combineDataHora (pd (bc.dia.getD "")) (bc.hora.getD ""))
        = some c0)
    (hePres : (truthy be.nome && truthy be.pacienteId && truthy be.medicoId
               && truthy be.dia && truthy be.hora) = true)
    (hePerm : (perfil == "PACIENTE" && be.pacienteId.getD "" != uid) = false)
    (heMed : dbe.usuarios.find? (fun u => u.id == be.medicoId.getD "") = some mede)
    (heMedP : mede.perfil = "MEDICO")
    (hePac : (dbe.usuarios.find? (fun u => u.id == be.pacienteId.getD "")).isSome = true)
    (heVal : (combineDataHora (pd (be.dia.getD "")) (be.hora.getD "")).isNone = false)
    (heConf : dbe.exames.find? (fun e => e.medicoId == be.medicoId.getD ""
        && e.dataHora == combineDataHora (pd (be.dia.getD "")) (be.hora.getD ""))
        = some e0) :
    createConsulta pd fid perfil uid bc dbc = (.err 409 "SLOT_UNAVAILABLE", dbc) ∧
    createExame pd fid perfil uid be dbe = (.err 409 "SLOT_UNAVAILABLE", dbe) := by
  constructor
  · obtain ⟨pac, hpac⟩ := Option.isSome_iff_exists.mp hcPac
    simp only [createConsulta, hcPres, hcPerm, hcMed, hcMedP, hpac, hcVal,
      hcConf, Bool.not_true, bne_self_eq_false, if_false, Bool.false_eq_true]
  · obtain ⟨pac, hpac⟩ := Option.isSome_iff_exists.mp hePac
    simp only [createExame, hePres, hePerm, heMed, heMedP, hpac, heVal,
      heConf, Bool.not_true, bne_self_eq_false, if_false, Bool.false_eq_true]

/-- Witness for C1: patient p1 books doctor m1 at the exact combined
timestamp of an existing CANCELADA appointment (and exam) — 409 in both
cases, store untouched. -/
theorem createBooking_slot_conflict_witness :
    cCancA.status = "CANCELADA" ∧ eCancA.status = "CANCELADA" ∧
    createConsulta pdZero "c9" "PACIENTE" "p1"
        ⟨some "p1", some "m1", some "2024-01-01", some "10:00", none⟩ dbSample
      = (.err 409 "SLOT_UNAVAILABLE", dbSample) ∧
    createExame pdZero "e9" "PACIENTE" "p1"
        ⟨some "Eco", some "p1", some "m1", some "2024-01-01", some "10:00", none⟩ dbSample
      = (.err 409 "SLOT_UNAVAILABLE", dbSample) :=
  ⟨rfl, rfl,
   (createBooking_slot_conflict pdZero "c9" "PACIENTE" "p1"
      ⟨some "p1", some "m1", some "2024-01-01", some "10:00", none⟩
      ⟨some "Eco", some "p1", some "m1", some "2024-01-01", some "10:00", none⟩
      dbSample dbSample uMedA uMedA cCancA eCancA
      (by decide) (by decide) (by decide) (by decide) (by decide) (by decide)
      (by decide) (by decide) (by decide) (by decide) (by decide) (by decide)
      (by decide) (by decide)).1,
   (createBooking_slot_conflict pdZero "c9" "PACIENTE" "p1"
      ⟨some "p1", some "m1", some "2024-01-01", some "10:00", none⟩
      ⟨some "Eco", some "p1", some "m1", some "2024-01-01", some "10:00", none⟩
      dbSample dbSample uMedA uMedA cCancA eCancA
      (by decide) (by decide) (by decide) (by decide) (by decide) (by decide)
      (by decide) (by decide) (by decide) (by decide) (by decide) (by decide)
      (by decide) (by decide)).2⟩

end Clinica

namespace Clinica

/-- C2: on every list and get-by-id operation over appointments, exams and
exam results, a PACIENTE caller only ever receives rows whose patient
reference is their own identity, and a MEDICO caller only rows whose doctor
reference is their own identity. -/
theorem listGet_role_visibility (perfil uid : String) (db : DB) :
    (∀ c ∈ listConsultas perfil uid db,
       pacVisible perfil uid c.pacienteId c.medicoId) ∧
    (∀ id c, getConsulta perfil uid id db = .ok 200 c →
       pacVisible perfil uid c.pacienteId c.medicoId) ∧
    (∀ e ∈ listExames perfil uid db,
       pacVisible perfil uid e.pacienteId e.medicoId) ∧
    (∀ id e, getExame perfil uid id db = .ok 200 e →
       pacVisible perfil uid e.pacienteId e.medicoId) ∧
    (∀ r ∈ listResultados perfil uid db,
       pacVisible perfil uid r.pacienteId r.medicoId) ∧
    (∀ id r, getResultado perfil uid id db = .ok 200 r →
       pacVisible perfil uid r.pacienteId r.medicoId) := by
  refine ⟨?_, ?_, ?_, ?_, ?_, ?_⟩
  · intro c hc
    rw [listConsultas, mem_sortBy, List.mem_filter] at hc
    obtain ⟨-, hfilt⟩ := hc
    constructor
    · intro hp; subst hp; simp at hfilt; exact hfilt
    · intro hp; subst hp; simp at hfilt; exact hfilt
  · intro id c h
    cases hfind : db.consultas.find? (fun x => x.id == id) with
    | none =>
      simp only [getConsulta, hfind] at h
      exact absurd h (by simp)
    | some c0 =>
      simp only [getConsulta, hfind] at h
      split at h
      next hc1 => exact absurd h (by simp)
      next hc1 =>
        split at h
        next hc2 => exact absurd h (by simp)
        next hc2 =>
          injection h with hstat hval
          subst hval
          constructor
          · intro hp; subst hp; simp at hc1; exact hc1
          · intro hp; subst hp; simp at hc2; exact hc2
  · intro e he
    rw [listExames, mem_sortBy, List.mem_filter] at he
    obtain ⟨-, hfilt⟩ := he
    constructor
    · intro hp; subst hp; simp at hfilt; exact hfilt
    · intro hp; subst hp; simp at hfilt; exact hfilt
  · intro id e h
    cases hfind : db.exames.find? (fun x => x.id == id) with
    | none =>
      simp only [getExame, hfind] at h
      exact absurd h (by simp)
    | some e0 =>
      simp only [getExame, hfind] at h
      split at h
      next hc1 => exact absurd h (by simp)
      next hc1 =>
        split at h
        next hc2 => exact absurd h (by simp)
        next hc2 =>
          injection h with hstat hval
          subst hval
          constructor
          · intro hp; subst hp; simp at hc1; exact hc1
          · intro hp; subst hp; simp at hc2; exact hc2
  · intro r hr
    rw [listResultados, mem_sortBy, List.mem_filter] at hr
    obtain ⟨-, hfilt⟩ := hr
    constructor
    · intro hp; subst hp; simp at hfilt; exact hfilt
    · intro hp; subst hp; simp at hfilt; exact hfilt
  · intro id r h
    cases hfind : db.resultados.find? (fun x => x.id == id) with
    | none =>
      simp only [getResultado, hfind] at h
      exact absurd h (by simp)
    | some r0 =>
      simp only [getResultado, hfind] at h
      split at h
      next hc1 => exact absurd h (by simp)
      next hc1 =>
        split at h
        next hc2 => exact absurd h (by simp)
        next hc2 =>
          injection h with hstat hval
          subst hval
          constructor
          · intro hp; subst hp; simp at hc1; exact hc1
          · intro hp; subst hp; simp at hc2; exact hc2

/-- Witness for C2: patient p1 sees their own appointment in the list, and
doctor m1 fetching appointment c2 gets a row carrying their own doctor
reference. -/
theorem listGet_role_visibility_witness :
    cAgA ∈ listConsultas "PACIENTE" "p1" dbSample ∧ cAgA.pacienteId = "p1" ∧
    getConsulta "MEDICO" "m1" "c2" dbSample = .ok 200 cAgA ∧ cAgA.medicoId = "m1" :=
  ⟨by decide,
   ((listGet_role_visibility "PACIENTE" "p1" dbSample).1 cAgA (by decide)).1 rfl,
   by decide,
   ((listGet_role_visibility "MEDICO" "m1" dbSample).2.1 "c2" cAgA (by decide)).2 rfl⟩

end Clinica

namespace Clinica

/-- C6: on appointment cancel the only permission rejection is a PACIENTE
caller whose identity differs from the appointment's patient; any other
caller (in particular a MEDICO who is not the appointment's doctor)
succeeds, and success sets the status to CANCELADA while keeping the row
(no hard delete). -/
theorem deleteConsulta_permission_asymmetry
    (perfil uid id : String) (db : DB) (c : Consulta)
    (hfind : db.consultas.find? (fun x => x.id == id) = some c) :
    (perfil = "PACIENTE" ∧ c.pacienteId ≠ uid →
       deleteConsulta perfil uid id db = (.err 403 "AUTH_FORBIDDEN", db)) ∧
    ((perfil = "PACIENTE" → c.pacienteId = uid) →
       (deleteConsulta perfil uid id db).1
         = .ok 200 { c with status := "CANCELADA" } ∧
       (deleteConsulta perfil uid id db).2.consultas.length
         = db.consultas.length ∧
       (deleteConsulta perfil uid id db).2.consultas.find? (fun x => x.id == id)
         = some { c with status := "CANCELADA" }) := by
  constructor
  · rintro ⟨hp, hne⟩
    subst hp
    simp only [deleteConsulta, hfind]
    rw [if_pos (by simp [hne])]
  · intro hperm
    have hcond : (perfil == "PACIENTE" && c.pacienteId != uid) = false := by
      by_cases hp : perfil = "PACIENTE"
      · simp [hp, hperm hp]
      · simp [hp]
    have hpc := List.find?_some hfind
    have hgc := find_map_pres
      (p := fun x : Consulta => x.id == id)
      (f := fun x : Consulta =>
        if x.id == id then { x with status := "CANCELADA" } else x)
      (fun x => by by_cases hx : (x.id == id) = true <;> simp [hx]) hfind
    simp only [hpc, if_pos hpc] at hgc
    simp only [deleteConsulta, hfind, hcond, Bool.false_eq_true, if_false]
    refine ⟨by simp, by simp, ?_⟩
    exact hgc

/-- Witness for C6: doctor m2 (not the doctor of appointment c2, which
belongs to m1) cancels it successfully; the row stays, CANCELADA. -/
theorem deleteConsulta_permission_asymmetry_witness :
    cAgA.medicoId = "m1" ∧
    (deleteConsulta "MEDICO" "m2" "c2" dbSample).1
      = .ok 200 { cAgA with status := "CANCELADA" } ∧
    (deleteConsulta "MEDICO" "m2" "c2" dbSample).2.consultas.length
      = dbSample.consultas.length ∧
    (deleteConsulta "MEDICO" "m2" "c2" dbSample).2.consultas.find?
        (fun x => x.id == "c2")
      = some { cAgA with status := "CANCELADA" } :=
  ⟨rfl,
   (deleteConsulta_permission_asymmetry "MEDICO" "m2" "c2" dbSample cAgA
     (by decide)).2 (by intro h; exact absurd h (by decide))⟩

/-- C5: canceling an existing booking twice (appointment or exam) by an
authorized caller is idempotent: both invocations succeed with status
CANCELADA and the second leaves the store exactly as the first did. -/
theorem cancelBooking_idempotent
    (perfil uid cid eid : String) (db dbe : DB) (c : Consulta) (e : Exame)
    (hc : db.consultas.find? (fun x => x.id == cid) = some c)
    (hcPerm : (perfil == "PACIENTE" && c.pacienteId != uid) = false)
    (he : dbe.exames.find? (fun x => x.id == eid) = some e)
    (hePerm : (perfil == "PACIENTE" && e.pacienteId != uid) = false) :
    ((deleteConsulta perfil uid cid db).1
       = .ok 200 { c with status := "CANCELADA" } ∧
     (deleteConsulta perfil uid cid db).2.consultas.find?
         (fun x => x.id == cid)
       = some { c with status := "CANCELADA" } ∧
     (deleteConsulta perfil uid cid ((deleteConsulta perfil uid cid db).2)).1
       = .ok 200 { c with status := "CANCELADA" } ∧
     (deleteConsulta perfil uid cid ((deleteConsulta perfil uid cid db).2)).2
       = (deleteConsulta perfil uid cid db).2) ∧
    ((deleteExame perfil uid eid dbe).1
       = .ok 200 { e with status := "CANCELADA" } ∧
     (deleteExame perfil uid eid dbe).2.exames.find?
         (fun x => x.id == eid)
       = some { e with status := "CANCELADA" } ∧
     (deleteExame perfil uid eid ((deleteExame perfil uid eid dbe).2)).1
       = .ok 200 { e with status := "CANCELADA" } ∧
     (deleteExame perfil uid eid ((deleteExame perfil uid eid dbe).2)).2
       = (deleteExame perfil uid eid dbe).2) := by
  constructor
  · have hpc : (c.id == cid) = true := by simpa using List.find?_some hc
    have hg : ∀ x : Consulta,
        (fun x : Consulta =>
          if x.id == cid then { x with status := "CANCELADA" } else x)
        ((fun x : Consulta =>
          if x.id == cid then { x with status := "CANCELADA" } else x) x)
        = (fun x : Consulta =>
          if x.id == cid then { x with status := "CANCELADA" } else x) x := by
      intro x
      by_cases hx : (x.id == cid) = true <;> simp [hx]
    have hgc := find_map_pres
      (p := fun x : Consulta => x.id == cid)
      (f := fun x : Consulta =>
        if x.id == cid then { x with status := "CANCELADA" } else x)
      (fun x => by by_cases hx : (x.id == cid) = true <;> simp [hx]) hc
    simp only [if_pos hpc] at hgc
    simp only [deleteConsulta, hc, hcPerm, Bool.false_eq_true, if_false, hgc]
    have hmapc := map_idem (g := fun x : Consulta =>
      if x.id == cid then { x with status := "CANCELADA" } else x) hg
    refine ⟨by simp, by simp, by simp, ?_⟩
    simp only [hmapc]
  · have hpe : (e.id == eid) = true := by simpa using List.find?_some he
    have hg : ∀ x : Exame,
        (fun x : Exame =>
          if x.id == eid then { x with status := "CANCELADA" } else x)
        ((fun x : Exame =>
          if x.id == eid then { x with status := "CANCELADA" } else x) x)
        = (fun x : Exame =>
          if x.id == eid then { x with status := "CANCELADA" } else x) x := by
      intro x
      by_cases hx : (x.id == eid) = true <;> simp [hx]
    have hge := find_map_pres
      (p := fun x : Exame => x.id == eid)
      (f := fun x : Exame =>
        if x.id == eid then { x with status := "CANCELADA" } else x)
      (fun x => by by_cases hx : (x.id == eid) = true <;> simp [hx]) he
    simp only [if_pos hpe] at hge
    simp only [deleteExame, he, hePerm, Bool.false_eq_true, if_false, hge]
    have hmape := map_idem (g := fun x : Exame =>
      if x.id == eid then { x with status := "CANCELADA" } else x) hg
    refine ⟨by simp, by simp, by simp, ?_⟩
    simp only [hmape]

/-- Witness for C5: patient p1 cancels own appointment c2 and exam e2
twice; both cancels succeed and the second changes nothing. -/
theorem cancelBooking_idempotent_witness :
    ((deleteConsulta "PACIENTE" "p1" "c2" dbSample).1
       = .ok 200 { cAgA with status := "CANCELADA" } ∧
     (deleteConsulta "PACIENTE" "p1" "c2" dbSample).2.consultas.find?
         (fun x => x.id == "c2")
       = some { cAgA with status := "CANCELADA" } ∧
     (deleteConsulta "PACIENTE" "p1" "c2"
        ((deleteConsulta "PACIENTE" "p1" "c2" dbSample).2)).1
       = .ok 200 { cAgA with status := "CANCELADA" } ∧
     (deleteConsulta "PACIENTE" "p1" "c2"
        ((deleteConsulta "PACIENTE" "p1" "c2" dbSample).2)).2
       = (deleteConsulta "PACIENTE" "p1" "c2" dbSample).2) ∧
    ((deleteExame "PACIENTE" "p1" "e2" dbSample).1
       = .ok 200 { eAgA with status := "CANCELADA" } ∧
     (deleteExame "PACIENTE" "p1" "e2" dbSample).2.exames.find?
         (fun x => x.id == "e2")
       = some { eAgA with status := "CANCELADA" } ∧
     (deleteExame "PACIENTE" "p1" "e2"
        ((deleteExame "PACIENTE" "p1" "e2" dbSample).2)).1
       = .ok 200 { eAgA with status := "CANCELADA" } ∧
     (deleteExame "PACIENTE" "p1" "e2"
        ((deleteExame "PACIENTE" "p1" "e2" dbSample).2)).2
       = (deleteExame "PACIENTE" "p1" "e2" dbSample).2) :=
  cancelBooking_idempotent "PACIENTE" "p1" "c2" "e2" dbSample dbSample
    cAgA eAgA (by decide) (by decide) (by decide) (by decide)

end Clinica

namespace Clinica

/-- C7: registering an already-registered push token does not error: the row
is reassigned to the calling user with the supplied platform; afterwards a
delete of that row by the prior owner answers 403 `AUTH_FORBIDDEN`. -/
theorem pushToken_reassign_on_reregister
    (fid u1 : String) (tok plat : Field) (db : DB) (t0 : PushToken)
    (hpres : (truthy tok && truthy plat) = true)
    (hplat : plataformasValidas.contains (plat.getD "") = true)
    (hfindTok : db.pushTokens.find? (fun t => t.token == tok.getD "") = some t0)
    (hfindId : db.pushTokens.find? (fun t => t.id == t0.id) = some t0)
    (hne : t0.usuarioId ≠ u1) :
    (registerPushToken fid u1 tok plat db).1
      = .ok 200 (reassignPushToken u1 (plat.getD "") t0) ∧
    (registerPushToken fid u1 tok plat db).2.pushTokens.find?
        (fun t => t.id == t0.id)
      = some (reassignPushToken u1 (plat.getD "") t0) ∧
    deletePushToken t0.usuarioId t0.id ((registerPushToken fid u1 tok plat db).2)
      = (.err 403 "AUTH_FORBIDDEN", (registerPushToken fid u1 tok plat db).2) := by
  have htok : (t0.token == tok.getD "") = true := by
    simpa using List.find?_some hfindTok
  have hmap := find_map_pres
    (p := fun t : PushToken => t.id == t0.id)
    (f := fun t : PushToken =>
      if t.token == tok.getD "" then reassignPushToken u1 (plat.getD "") t else t)
    (fun x => by
      by_cases hx : (x.token == tok.getD "") = true <;>
        simp [hx, reassignPushToken]) hfindId
  simp only [if_pos htok] at hmap
  have hne2 : (u1 != t0.usuarioId) = true := by
    simp [bne_iff_ne]
    exact fun hEq => hne hEq.symm
  have hcond : ((reassignPushToken u1 (plat.getD "") t0).usuarioId
      != t0.usuarioId) = true := by
    simp only [reassignPushToken]
    exact hne2
  simp only [registerPushToken, hpres, hplat, hfindTok, Bool.not_true,
    Bool.false_eq_true, if_false]
  refine ⟨trivial, hmap, ?_⟩
  simp only [deletePushToken, hmap, if_pos hcond]

/-- Witness for C7: user p2 re-registers p1's token tok1 on android; p1 can
no longer delete row t1. -/
theorem pushToken_reassign_on_reregister_witness :
    ptA.usuarioId = "p1" ∧
    (registerPushToken "t9" "p2" (some "tok1") (some "android") dbSample).1
      = .ok 200 (reassignPushToken "p2" "android" ptA) ∧
    deletePushToken "p1" "t1"
        ((registerPushToken "t9" "p2" (some "tok1") (some "android") dbSample).2)
      = (.err 403 "AUTH_FORBIDDEN",
         (registerPushToken "t9" "p2" (some "tok1") (some "android") dbSample).2) :=
  ⟨rfl,
   (pushToken_reassign_on_reregister "t9" "p2" (some "tok1") (some "android")
      dbSample ptA (by decide) (by decide) (by decide) (by decide)
      (by decide)).1,
   (pushToken_reassign_on_reregister "t9" "p2" (some "tok1") (some "android")
      dbSample ptA (by decide) (by decide) (by decide) (by decide)
      (by decide)).2.2⟩

/-- The frame relation holds reflexively: an untouched row trivially keeps
every unsupplied field. -/
theorem frameConsulta_refl (st : Field) (dt : Option (Option String))
    (x : Consulta) : frameConsulta st dt x x :=
  ⟨rfl, rfl, rfl, rfl, rfl, rfl, fun _ => rfl, fun _ => rfl⟩

/-- Applying the update payload to a row only changes supplied fields. -/
theorem frameConsulta_apply (st : Field) (dt : Option (Option String))
    (x : Consulta) : frameConsulta st dt x (applyConsultaUpdate st dt x) := by
  unfold applyConsultaUpdate frameConsulta
  cases dt with
  | none => cases hst : truthy st <;> simp [hst]
  | some d => cases hst : truthy st <;> simp [hst]

/-- The frame relation holds reflexively for exam rows. -/
theorem frameExame_refl (st : Field) (dt : Option (Option String))
    (x : Exame) : frameExame st dt x x :=
  ⟨rfl, rfl, rfl, rfl, rfl, rfl, rfl, fun _ => rfl, fun _ => rfl⟩

/-- Applying the exam update payload only changes supplied fields. -/
theorem frameExame_apply (st : Field) (dt : Option (Option String))
    (x : Exame) : frameExame st dt x (applyExameUpdate st dt x) := by
  unfold applyExameUpdate frameExame
  cases dt with
  | none => cases hst : truthy st <;> simp [hst]
  | some d => cases hst : truthy st <;> simp [hst]

/-- C9: a booking update request (appointment or exam) leaves every row
count unchanged and, position by position, every field it did not supply —
in particular the patient reference, doctor reference and combined
timestamp, which are never updatable — unchanged. -/
theorem updateBooking_frame
    (perfil uid cid eid : String) (stc ste : Field)
    (dtc dte : Option (Option String)) (db dbe : DB) :
    ((updateConsulta perfil uid cid stc dtc db).2.consultas.length
       = db.consultas.length ∧
     ∀ (i : Nat) (x y : Consulta), db.consultas[i]? = some x →
       ((updateConsulta perfil uid cid stc dtc db).2.consultas)[i]? = some y →
       frameConsulta stc dtc x y) ∧
    ((updateExame perfil uid eid ste dte dbe).2.exames.length
       = dbe.exames.length ∧
     ∀ (i : Nat) (x y : Exame), dbe.exames[i]? = some x →
       ((updateExame perfil uid eid ste dte dbe).2.exames)[i]? = some y →
       frameExame ste dte x y) := by
  constructor
  · have base : ∀ (i : Nat) (x y : Consulta), db.consultas[i]? = some x →
        db.consultas[i]? = some y → frameConsulta stc dtc x y := by
      intro i x y hx hy
      rw [hx] at hy
      injection hy with hxy
      subst hxy
      exact frameConsulta_refl _ _ _
    have hmap : ∀ (i : Nat) (x y : Consulta), db.consultas[i]? = some x →
        (db.consultas.map (fun z =>
          if z.id == cid then applyConsultaUpdate stc dtc z else z))[i]?
          = some y →
        frameConsulta stc dtc x y := by
      intro i x y hx hy
      rw [List.getElem?_map, hx] at hy
      rw [Option.map_some'] at hy
      injection hy with hxy
      subst hxy
      by_cases hz : (x.id == cid) = true
      · rw [if_pos hz]
        exact frameConsulta_apply _ _ _
      · rw [if_neg hz]
        exact frameConsulta_refl _ _ _
    cases hfind : db.consultas.find? (fun x => x.id == cid) with
    | none =>
      simp only [updateConsulta, hfind]
      exact ⟨trivial, base⟩
    | some c0 =>
      by_cases h1 : (perfil == "PACIENTE" && c0.pacienteId != uid) = true
      · simp only [updateConsulta, hfind, if_pos h1]
        exact ⟨trivial, base⟩
      · by_cases h2 : (perfil == "MEDICO" && c0.medicoId != uid) = true
        · simp only [updateConsulta, hfind, if_neg h1, if_pos h2]
          exact ⟨trivial, base⟩
        · by_cases h3 : (truthy stc
              && !(statusValidos.contains (stc.getD ""))) = true
          · simp only [updateConsulta, hfind, if_neg h1, if_neg h2, if_pos h3]
            exact ⟨trivial, base⟩
          · simp only [updateConsulta, hfind, if_neg h1, if_neg h2, if_neg h3]
            exact ⟨by simp, hmap⟩
  · have base : ∀ (i : Nat) (x y : Exame), dbe.exames[i]? = some x →
        dbe.exames[i]? = some y → frameExame ste dte x y := by
      intro i x y hx hy
      rw [hx] at hy
      injection hy with hxy
      subst hxy
      exact frameExame_refl _ _ _
    have hmap : ∀ (i : Nat) (x y : Exame), dbe.exames[i]? = some x →
        (dbe.exames.map (fun z =>
          if z.id == eid then applyExameUpdate ste dte z else z))[i]?
          = some y →
        frameExame ste dte x y := by
      intro i x y hx hy
      rw [List.getElem?_map, hx] at hy
      rw [Option.map_some'] at hy
      injection hy with hxy
      subst hxy
      by_cases hz : (x.id == eid) = true
      · rw [if_pos hz]
        exact frameExame_apply _ _ _
      · rw [if_neg hz]
        exact frameExame_refl _ _ _
    cases hfind : dbe.exames.find? (fun x => x.id == eid) with
    | none =>
      simp only [updateExame, hfind]
      exact ⟨trivial, base⟩
    | some e0 =>
      by_cases h1 : (perfil == "PACIENTE" && e0.pacienteId != uid) = true
      · simp only [updateExame, hfind, if_pos h1]
        exact ⟨trivial, base⟩
      · by_cases h2 : (perfil == "MEDICO" && e0.medicoId != uid) = true
        · simp only [updateExame, hfind, if_neg h1, if_pos h2]
          exact ⟨trivial, base⟩
        · by_cases h3 : (truthy ste
              && !(statusValidos.contains (ste.getD ""))) = true
          · simp only [updateExame, hfind, if_neg h1, if_neg h2, if_pos h3]
            exact ⟨trivial, base⟩
          · simp only [updateExame, hfind, if_neg h1, if_neg h2, if_neg h3]
            exact ⟨by simp, hmap⟩

/-- Witness for C9: updating appointment c2 with only a new status keeps
its patient, doctor, timestamp and free text; updating exam e2 with
nothing supplied keeps everything. -/
theorem updateBooking_frame_witness :
    frameConsulta (some "REALIZADA") none cAgA
      { cAgA with status := "REALIZADA" } ∧
    frameExame none none eAgA eAgA :=
  ⟨(updateBooking_frame "ADMIN" "a1" "c2" "e2" (some "REALIZADA") none
      none none dbSample dbSample).1.2 1 cAgA
      { cAgA with status := "REALIZADA" } (by decide) (by decide),
   (updateBooking_frame "ADMIN" "a1" "c2" "e2" (some "REALIZADA") none
      none none dbSample dbSample).2.2 1 eAgA eAgA (by decide) (by decide)⟩

end Clinica

namespace Clinica

/-- Fetching a freshly appended row by its id: no earlier row matches the
fresh id and neither ownership check fires. -/
theorem getConsulta_append_fresh (perfil2 uid2 fid : String) (db : DB)
    (cv : Consulta) (hid : cv.id = fid)
    (hfresh : ∀ x ∈ db.consultas, (x.id == fid) = false)
    (hcond1 : (perfil2 == "PACIENTE" && cv.pacienteId != uid2) = false)
    (hcond2 : (perfil2 == "MEDICO" && cv.medicoId != uid2) = false) :
    getConsulta perfil2 uid2 fid { db with consultas := db.consultas ++ [cv] }
      = .ok 200 cv := by
  have hnone : db.consultas.find? (fun x => x.id == fid) = none :=
    List.find?_eq_none.mpr (by intro x hx; simp [hfresh x hx])
  have hone : ([cv] : List Consulta).find? (fun x => x.id == fid) = some cv := by
    rw [List.find?_cons_of_pos _ (by simp [hid])]
  simp only [getConsulta, List.find?_append, hnone, hone, Option.none_or,
    hcond1, hcond2, Bool.false_eq_true, if_false]

/-- C4: after a successful appointment create whose `hora` is of the form
HH:MM (both pieces parse) and whose `dia` parses to a valid date, fetching
the created booking by its id returns the stored row, and that row's
combined timestamp is the date of `dia` with the parsed hour and minute set
and seconds and milliseconds zeroed. -/
theorem createConsulta_roundtrip
    (pd : String → DateMs) (fid perfil uid perfil2 uid2 : String)
    (bc : CreateConsultaReq) (db db1 : DB) (c : Consulta)
    (hs1 ms1 : String) (h m d : Int)
    (hcreate : createConsulta pd fid perfil uid bc db = (.ok 201 c, db1))
    (hsplit : splitHora (bc.hora.getD "") = (hs1, some ms1))
    (hh : parseIntJS hs1 = some h) (hm : parseIntJS ms1 = some m)
    (hd : pd (bc.dia.getD "") = some d)
    (hfresh : ∀ x ∈ db.consultas, (x.id == fid) = false)
    (hp2 : perfil2 = "PACIENTE" → bc.pacienteId.getD "" = uid2)
    (hq2 : perfil2 = "MEDICO" → bc.medicoId.getD "" = uid2) :
    getConsulta perfil2 uid2 fid db1 = .ok 200 c ∧
    c.dataHora = some (msPerDay * Int.fdiv d msPerDay
      + h * msPerHour + m * msPerMinute) := by
  simp only [createConsulta] at hcreate
  by_cases q1 : (!(truthy bc.pacienteId && truthy bc.medicoId
      && truthy bc.dia && truthy bc.hora)) = true
  · rw [if_pos q1] at hcreate
    simp at hcreate
  · rw [if_neg q1] at hcreate
    by_cases q2 : (perfil == "PACIENTE" && bc.pacienteId.getD "" != uid) = true
    · rw [if_pos q2] at hcreate
      simp at hcreate
    · rw [if_neg q2] at hcreate
      cases hmed : db.usuarios.find? (fun u => u.id == bc.medicoId.getD "") with
      | none =>
        simp only [hmed] at hcreate
        simp at hcreate
      | some med =>
        simp only [hmed] at hcreate
        by_cases q3 : (med.perfil != "MEDICO") = true
        · rw [if_pos q3] at hcreate
          simp at hcreate
        · rw [if_neg q3] at hcreate
          cases hpac : db.usuarios.find?
              (fun u => u.id == bc.pacienteId.getD "") with
          | none =>
            simp only [hpac] at hcreate
            simp at hcreate
          | some pac =>
            simp only [hpac] at hcreate
            by_cases q4 : (combineDataHora (pd (bc.dia.getD ""))
                (bc.hora.getD "")).isNone = true
            · rw [if_pos q4] at hcreate
              simp at hcreate
            · rw [if_neg q4] at hcreate
              cases hconf : db.consultas.find? (fun x =>
                x.medicoId == bc.medicoId.getD ""
                && x.dataHora == combineDataHora (pd (bc.dia.getD ""))
                     (bc.hora.getD "")) with
            | some c0 =>
              simp only [hconf] at hcreate
              simp at hcreate
            | none =>
              simp only [hconf] at hcreate
              rw [Prod.mk.injEq] at hcreate
              obtain ⟨hval, hdb⟩ := hcreate
              injection hval with hstat hv
              subst hdb
              subst hv
              constructor
              · refine getConsulta_append_fresh perfil2 uid2 fid db _ rfl hfresh ?_ ?_
                · by_cases hp : perfil2 = "PACIENTE"
                  · simp [hp, hp2 hp]
                  · simp [hp]
                · by_cases hp : perfil2 = "MEDICO"
                  · simp [hp, hq2 hp]
                  · simp [hp]
              · simp only [combineDataHora]
                rw [hsplit]
                simp only [parseIntOpt]
                rw [hh, hm, hd]
                rfl

/-- Witness for C4: patient p1 books doctor m2 at 09:30; the fetch returns
the row and its combined timestamp is 09:30:00.000 of the epoch day. -/
theorem createConsulta_roundtrip_witness :
    getConsulta "PACIENTE" "p1" "c9"
        { dbSample with consultas := dbSample.consultas ++
            [⟨"c9", "p1", "m2", some 0, "09:30", some 34200000, none, "AGENDADA"⟩] }
      = .ok 200 ⟨"c9", "p1", "m2", some 0, "09:30", some 34200000, none, "AGENDADA"⟩ ∧
    (⟨"c9", "p1", "m2", some 0, "09:30", some 34200000, none,
        "AGENDADA"⟩ : Consulta).dataHora
      = some (msPerDay * Int.fdiv 0 msPerDay + 9 * msPerHour + 30 * msPerMinute) :=
  createConsulta_roundtrip pdZero "c9" "PACIENTE" "p1" "PACIENTE" "p1"
    ⟨some "p1", some "m2", some "2024-01-01", some "09:30", none⟩
    dbSample
    { dbSample with consultas := dbSample.consultas ++
        [⟨"c9", "p1", "m2", some 0, "09:30", some 34200000, none, "AGENDADA"⟩] }
    ⟨"c9", "p1", "m2", some 0, "09:30", some 34200000, none, "AGENDADA"⟩
    "09" "30" 9 30 0
    (by decide) (by decide) (by decide) (by decide) (by decide)
    (by decide) (fun _ => rfl) (fun hx => absurd hx (by decide))

end Clinica
